import Mathlib

/-!
# Verification of the chunk streaming engine of `plane_game`

Shallow embedding of the world-streaming core of `src/main.rs`:
terrain height sampling (`get_terrain_height`), chunk coordinates
(`ChunkCoordinate`), per-chunk content generation (`spawn_trees_in_chunk`,
`spawn_rocks_in_chunk`, `spawn_meteors_in_chunk`, `should_spawn_village`,
the patrol decision inside `spawn_chunk`), the ground/collider guard of
`spawn_chunk`, and the chunk manager step (`manage_chunks`).

Conventions of the embedding:
* `f32` world quantities are modelled as exact rationals (`ℚ`); the claims
  under study are about exact coincidence of sampled coordinates and about
  stream structure, not about rounding.
* The external Perlin noise primitive (`noise::Perlin`, seeded with the
  fixed constant 42) is modelled as an abstract pure function
  `perlin : ℚ → ℚ → ℚ`; theorems quantify over it.
* The external `rand::rngs::StdRng` is modelled as a deterministic stream:
  a state `Rng` carries the 64-bit seed and a draw index, and each
  `gen_range` call consumes exactly one abstract draw from an ambient
  entropy family `R : Nat → Nat → Nat` (seed → index → raw value).
  Theorems quantify over `R`.  Angles drawn from `0.0..TAU` are recorded
  as the fraction of the full turn (the unit draw) since `τ = 2π` is
  irrational; this fixed rescaling preserves equality and distinctness of
  draws.
* Wrapping 32/64-bit integer arithmetic is modelled on `Int` with explicit
  reduction modulo `2^32` / `2^64`.
-/

namespace PlaneGame

/-- A world position (bevy `Vec3`), modelled over `ℚ`. -/
structure Vec3q where
  x : ℚ
  y : ℚ
  z : ℚ
deriving DecidableEq, Repr

/-- `const CHUNK_SIZE: f32 = 1000.0` -/
def CHUNK_SIZE : ℚ := 1000

/-- `const LOAD_RADIUS_CHUNKS: i32 = 8` -/
def LOAD_RADIUS_CHUNKS : Int := 8

/-- `const UNLOAD_RADIUS_CHUNKS: i32 = 12` -/
def UNLOAD_RADIUS_CHUNKS : Int := 12

/-- `const TREES_PER_CHUNK_MIN: usize = 5` -/
def TREES_PER_CHUNK_MIN : Nat := 5

/-- `const TREES_PER_CHUNK_MAX: usize = 10` -/
def TREES_PER_CHUNK_MAX : Nat := 10

/-- `struct ChunkCoordinate { x: i32, z: i32 }` -/
structure ChunkCoordinate where
  x : Int
  z : Int
deriving DecidableEq, Repr

/-- `ChunkCoordinate::from_world_pos`: floor-divide world x/z by `CHUNK_SIZE`. -/
def ChunkCoordinate.from_world_pos (pos : Vec3q) : ChunkCoordinate :=
  ⟨⌊pos.x / CHUNK_SIZE⌋, ⌊pos.z / CHUNK_SIZE⌋⟩

/-- `ChunkCoordinate::world_position`: `(x*CHUNK_SIZE, 0, z*CHUNK_SIZE)`. -/
def ChunkCoordinate.world_position (c : ChunkCoordinate) : Vec3q :=
  ⟨(c.x : ℚ) * CHUNK_SIZE, 0, (c.z : ℚ) * CHUNK_SIZE⟩

/-- `get_terrain_height` (src/main.rs lines 34–54): three Perlin layers
summed, then clamped to `[-50, 150]`.  The Perlin primitive (external
crate, fixed seed 42) is the abstract parameter `perlin`. -/
def get_terrain_height (perlin : ℚ → ℚ → ℚ) (world_x world_z : ℚ) : ℚ :=
  let height_large := perlin (world_x * (2/1000)) (world_z * (2/1000)) * 100
  let height_medium := perlin (world_x * (1/100) + 100) (world_z * (1/100) + 100) * 15
  let height_small := perlin (world_x * (1/20) + 200) (world_z * (1/20) + 200) * 3
  min (max (height_large + height_medium + height_small) (-50)) 150

/-! ## Wrapping integer casts and the hash gates -/

/-- Bit pattern of an `i64` value reinterpreted `as u64`:
the nonnegative residue modulo `2^64`. -/
def u64cast (n : Int) : Nat := (n % (18446744073709551616 : Int)).toNat

/-- Bit pattern of an `i32` value reinterpreted `as u32`:
the nonnegative residue modulo `2^32`.  `i32::wrapping_mul` followed by
this cast is exactly multiplication followed by reduction mod `2^32`. -/
def u32cast (n : Int) : Nat := (n % (4294967296 : Int)).toNat

/-- Seed of the tree RNG (src/main.rs line 1305):
`((x as i64 * 73856093) ^ (z as i64 * 19349663)) as u64`. -/
def seed_trees (c : ChunkCoordinate) : Nat :=
  Nat.xor (u64cast (c.x * 73856093)) (u64cast (c.z * 19349663))

/-- Seed of the rock RNG (src/main.rs line 1380), multipliers swapped
relative to trees. -/
def seed_rocks (c : ChunkCoordinate) : Nat :=
  Nat.xor (u64cast (c.x * 19349663)) (u64cast (c.z * 73856093))

/-- Seed of the meteor RNG (src/main.rs line 1807). -/
def seed_meteors (c : ChunkCoordinate) : Nat :=
  Nat.xor (u64cast (c.x * 1234567)) (u64cast (c.z * 7654321))

/-- `should_spawn_village`'s hash (src/main.rs line 1580):
`((x.wrapping_mul(73856093)) ^ (z.wrapping_mul(19349663))) as u32`. -/
def village_hash (c : ChunkCoordinate) : Nat :=
  Nat.xor (u32cast (c.x * 73856093)) (u32cast (c.z * 19349663))

/-- `should_spawn_village` (src/main.rs lines 1579–1582): `hash % 100 < 15`. -/
def should_spawn_village (c : ChunkCoordinate) : Bool :=
  village_hash c % 100 < 15

/-- The patrol-spawn hash inside `spawn_chunk` (src/main.rs line 1264):
`((x.wrapping_mul(1234567)) ^ (z.wrapping_mul(7654321))) as u32`. -/
def patrol_hash (c : ChunkCoordinate) : Nat :=
  Nat.xor (u32cast (c.x * 1234567)) (u32cast (c.z * 7654321))

/-- The patrol-spawn decision inside `spawn_chunk` (src/main.rs line 1265):
`(hash % 100) < 15`. -/
def should_spawn_patrol (c : ChunkCoordinate) : Bool :=
  patrol_hash c % 100 < 15

/-! ## The seeded RNG model -/

/-- Model of a `StdRng` instance: the seed it was constructed from and the
index of the next draw to be consumed. -/
structure Rng where
  seed : Nat
  idx : Nat
deriving DecidableEq, Repr

/-- Consume one raw draw from the ambient entropy family `R`. -/
def nextRaw (R : Nat → Nat → Nat) (g : Rng) : Nat × Rng :=
  (R g.seed g.idx, ⟨g.seed, g.idx + 1⟩)

/-- Map a raw draw to the unit interval `[0,1)` (as a rational). -/
def unitOf (n : Nat) : ℚ := ((n % 1000000 : Nat) : ℚ) / 1000000

/-- `rng.gen_range(lo..=hi)` on integers (inclusive range). -/
def gen_range_incl (R : Nat → Nat → Nat) (lo hi : Nat) (g : Rng) : Nat × Rng :=
  let p := nextRaw R g
  (lo + p.1 % (hi + 1 - lo), p.2)

/-- `rng.gen_range(lo..hi)` on integers (exclusive range), used for model
palette indices. -/
def gen_range_excl (R : Nat → Nat → Nat) (lo hi : Nat) (g : Rng) : Nat × Rng :=
  let p := nextRaw R g
  (lo + p.1 % (hi - lo), p.2)

/-- `rng.gen_range(lo..hi)` on `f32` (half-open range). -/
def gen_range_q (R : Nat → Nat → Nat) (lo hi : ℚ) (g : Rng) : ℚ × Rng :=
  let p := nextRaw R g
  (lo + (hi - lo) * unitOf p.1, p.2)

/-- `rng.gen_range(0.0..TAU)`: the drawn angle recorded as a fraction of
the full turn (see the header comment). -/
def gen_angle (R : Nat → Nat → Nat) (g : Rng) : ℚ × Rng :=
  let p := nextRaw R g
  (unitOf p.1, p.2)

/-! ## Content generation: trees, rocks, meteors -/

/-- One tree placement record (the components of the spawned `Tree`
entity's transform and model choice). `rotation` is the yaw as a fraction
of a full turn. -/
structure TreePlacement where
  x : ℚ
  z : ℚ
  modelIndex : Nat
  scale : ℚ
  rotation : ℚ
  y : ℚ
deriving DecidableEq, Repr

/-- `tree_models.len()` (five `.glb` paths, src/main.rs lines 1312–1318). -/
def tree_models_len : Nat := 5

/-- One iteration of the tree loop (src/main.rs lines 1329–1366):
draw local `x`, `z`; if the chunk has a village and the candidate lies
within the 400-unit exclusion radius, `continue` (consuming no further
draws); otherwise draw model index, scale, yaw and place the tree at
terrain height + 5. -/
def tree_iter (R : Nat → Nat → Nat) (perlin : ℚ → ℚ → ℚ)
    (c : ChunkCoordinate) (g : Rng) : Option TreePlacement × Rng :=
  let px := gen_range_q R (-(CHUNK_SIZE/2)) (CHUNK_SIZE/2) g
  let pz := gen_range_q R (-(CHUNK_SIZE/2)) (CHUNK_SIZE/2) px.2
  let x := px.1
  let z := pz.1
  if should_spawn_village c = true ∧ x*x + z*z < 400*400 then
    (none, pz.2)
  else
    let pm := gen_range_excl R 0 tree_models_len pz.2
    let ps := gen_range_q R 3 6 pm.2
    let pr := gen_angle R ps.2
    let world_x := (c.x : ℚ) * CHUNK_SIZE + x
    let world_z := (c.z : ℚ) * CHUNK_SIZE + z
    let terrain_height := get_terrain_height perlin world_x world_z
    (some ⟨x, z, pm.1, ps.1, pr.1, terrain_height + 5⟩, pr.2)

/-- The tree loop: `for _ in 0..tree_count`. -/
def tree_loop (R : Nat → Nat → Nat) (perlin : ℚ → ℚ → ℚ)
    (c : ChunkCoordinate) : Nat → Rng → List TreePlacement
  | 0, _ => []
  | n + 1, g =>
    let p := tree_iter R perlin c g
    match p.1 with
    | none => tree_loop R perlin c n p.2
    | some t => t :: tree_loop R perlin c n p.2

/-- `spawn_trees_in_chunk` (src/main.rs lines 1294–1368), as the list of
placements it produces: seed the RNG from the chunk coordinate, draw
`tree_count ∈ [5,10]`, then run the loop. -/
def spawn_trees_in_chunk (R : Nat → Nat → Nat) (perlin : ℚ → ℚ → ℚ)
    (c : ChunkCoordinate) : List TreePlacement :=
  let g0 : Rng := ⟨seed_trees c, 0⟩
  let pc := gen_range_incl R TREES_PER_CHUNK_MIN TREES_PER_CHUNK_MAX g0
  tree_loop R perlin c pc.1 pc.2

/-- One rock placement record. -/
structure RockPlacement where
  x : ℚ
  z : ℚ
  scale : ℚ
  rotation : ℚ
  y : ℚ
deriving DecidableEq, Repr

/-- One iteration of the rock loop (src/main.rs lines 1394–1427): draw
local `x`, `z`; `continue` on village exclusion; otherwise draw scale and
yaw and place at terrain height + 5 + 7.5·scale. -/
def rock_iter (R : Nat → Nat → Nat) (perlin : ℚ → ℚ → ℚ)
    (c : ChunkCoordinate) (g : Rng) : Option RockPlacement × Rng :=
  let px := gen_range_q R (-(CHUNK_SIZE/2)) (CHUNK_SIZE/2) g
  let pz := gen_range_q R (-(CHUNK_SIZE/2)) (CHUNK_SIZE/2) px.2
  let x := px.1
  let z := pz.1
  if should_spawn_village c = true ∧ x*x + z*z < 400*400 then
    (none, pz.2)
  else
    let ps := gen_range_q R (8/10) (15/10) pz.2
    let pr := gen_angle R ps.2
    let world_x := (c.x : ℚ) * CHUNK_SIZE + x
    let world_z := (c.z : ℚ) * CHUNK_SIZE + z
    let terrain_height := get_terrain_height perlin world_x world_z
    (some ⟨x, z, ps.1, pr.1, terrain_height + 5 + (15/2) * ps.1⟩, pr.2)

/-- The rock loop: `for _ in 0..rock_count`. -/
def rock_loop (R : Nat → Nat → Nat) (perlin : ℚ → ℚ → ℚ)
    (c : ChunkCoordinate) : Nat → Rng → List RockPlacement
  | 0, _ => []
  | n + 1, g =>
    let p := rock_iter R perlin c g
    match p.1 with
    | none => rock_loop R perlin c n p.2
    | some r => r :: rock_loop R perlin c n p.2

/-- `spawn_rocks_in_chunk` (src/main.rs lines 1370–1429): seed from the
chunk coordinate with the multipliers swapped, draw `rock_count ∈ [2,4]`,
run the loop. -/
def spawn_rocks_in_chunk (R : Nat → Nat → Nat) (perlin : ℚ → ℚ → ℚ)
    (c : ChunkCoordinate) : List RockPlacement :=
  let g0 : Rng := ⟨seed_rocks c, 0⟩
  let pc := gen_range_incl R 2 4 g0
  rock_loop R perlin c pc.1 pc.2

/-- One meteor placement record.  Rotations are Euler XYZ angles, each
recorded as a fraction of a full turn. -/
structure MeteorPlacement where
  x : ℚ
  y : ℚ
  z : ℚ
  rotX : ℚ
  rotY : ℚ
  rotZ : ℚ
  scale : ℚ
  modelIndex : Nat
deriving DecidableEq, Repr

/-- `METEOR_COUNT` (src/main.rs line 1823). -/
def METEOR_COUNT : Nat := 40

/-- `meteor_paths.len()` (three `.glb` scene paths). -/
def meteor_models_len : Nat := 3

/-- One iteration of the meteor loop (src/main.rs lines 1826–1866):
local position with altitude in `[200,4000)`, three Euler angles, a size
class picked by thresholding a unit draw at 0.9, and a model index. -/
def meteor_iter (R : Nat → Nat → Nat) (g : Rng) : MeteorPlacement × Rng :=
  let px := gen_range_q R (-(CHUNK_SIZE/2)) (CHUNK_SIZE/2) g
  let py := gen_range_q R 200 4000 px.2
  let pz := gen_range_q R (-(CHUNK_SIZE/2)) (CHUNK_SIZE/2) py.2
  let prx := gen_angle R pz.2
  let pry := gen_angle R prx.2
  let prz := gen_angle R pry.2
  let proll := gen_range_q R 0 1 prz.2
  let pscale :=
    if proll.1 > 9/10 then gen_range_q R 12 25 proll.2
    else gen_range_q R 2 8 proll.2
  let pm := gen_range_excl R 0 meteor_models_len pscale.2
  (⟨px.1, py.1, pz.1, prx.1, pry.1, prz.1, pscale.1, pm.1⟩, pm.2)

/-- The meteor loop: a fixed count of 40 iterations, no skipping. -/
def meteor_loop (R : Nat → Nat → Nat) : Nat → Rng → List MeteorPlacement
  | 0, _ => []
  | n + 1, g =>
    let p := meteor_iter R g
    p.1 :: meteor_loop R n p.2

/-- `spawn_meteors_in_chunk` (src/main.rs lines 1800–1869). -/
def spawn_meteors_in_chunk (R : Nat → Nat → Nat)
    (c : ChunkCoordinate) : List MeteorPlacement :=
  let g0 : Rng := ⟨seed_meteors c, 0⟩
  meteor_loop R METEOR_COUNT g0

/-! ## The whole per-chunk content pipeline and `spawn_chunk` -/

/-- Everything the content pipeline of one chunk produces. -/
structure ChunkContent where
  trees : List TreePlacement
  rocks : List RockPlacement
  meteors : List MeteorPlacement
  village : Bool
  patrol : Option Vec3q
deriving DecidableEq, Repr

/-- The patrol spawn position (src/main.rs lines 1262–1269):
`chunk_pos + Vec3::new(0.0, 500.0, 0.0)` when the patrol hash fires. -/
def patrol_spawn (c : ChunkCoordinate) : Option Vec3q :=
  if should_spawn_patrol c = true then
    some ⟨(c.x : ℚ) * CHUNK_SIZE + 0, 0 + 500, (c.z : ℚ) * CHUNK_SIZE + 0⟩
  else none

/-- The full content generation pipeline that `spawn_chunk` runs for one
chunk: trees, rocks, meteors, the village decision, the patrol decision. -/
def content_pipeline (R : Nat → Nat → Nat) (perlin : ℚ → ℚ → ℚ)
    (c : ChunkCoordinate) : ChunkContent :=
  { trees := spawn_trees_in_chunk R perlin c
    rocks := spawn_rocks_in_chunk R perlin c
    meteors := spawn_meteors_in_chunk R c
    village := should_spawn_village c
    patrol := patrol_spawn c }

/-- Calling the content pipeline twice for the same chunk, as two separate
invocations (each invocation re-derives its seeds from the chunk
coordinate and constructs fresh `StdRng`s; nothing else is read). -/
def content_pipeline_twice (R : Nat → Nat → Nat) (perlin : ℚ → ℚ → ℚ)
    (c : ChunkCoordinate) : ChunkContent × ChunkContent :=
  (content_pipeline R perlin c, content_pipeline R perlin c)

/-- Model of an `f32` value as seen by the collider guard: its numeric
value when finite, plus its finiteness flag. -/
structure F32 where
  val : ℚ
  isFinite : Bool
deriving DecidableEq, Repr

/-- Which parts of the ground child entity get attached. -/
structure GroundSpawnResult where
  visualMesh : Bool
  collider : Bool
deriving DecidableEq, Repr

/-- The ground-child block of `spawn_chunk` (src/main.rs lines 1231–1256):
`if half_size > 0.0 && half_size.is_finite() && thickness > 0.0` the single
child entity carrying BOTH the terrain mesh and the cuboid collider is
spawned; otherwise nothing is spawned (only an error is logged). -/
def spawn_ground_child (half_size thickness : F32) : GroundSpawnResult :=
  if 0 < half_size.val ∧ half_size.isFinite = true ∧ 0 < thickness.val then
    ⟨true, true⟩
  else
    ⟨false, false⟩

/-- Result of `spawn_chunk` for one chunk: the ground child outcome and
the generated content.  In the source the content spawns (trees, rocks,
meteors, patrol, village) happen unconditionally after the ground block,
outside its validity guard. -/
structure ChunkSpawnResult where
  ground : GroundSpawnResult
  content : ChunkContent
deriving DecidableEq, Repr

/-- `spawn_chunk` (src/main.rs lines 1200–1277) with the collider extents
kept as parameters (they are the `let half_size` / `let thickness`
bindings feeding the guard); the content generation runs regardless of the
guard. -/
def spawn_chunk_with_extents (half_size thickness : F32)
    (R : Nat → Nat → Nat) (perlin : ℚ → ℚ → ℚ)
    (c : ChunkCoordinate) : ChunkSpawnResult :=
  { ground := spawn_ground_child half_size thickness
    content := content_pipeline R perlin c }

/-- `spawn_chunk` proper: `half_size = CHUNK_SIZE / 2.0 = 500` (finite),
`thickness = 0.5`. -/
def spawn_chunk (R : Nat → Nat → Nat) (perlin : ℚ → ℚ → ℚ)
    (c : ChunkCoordinate) : ChunkSpawnResult :=
  spawn_chunk_with_extents ⟨CHUNK_SIZE / 2, true⟩ ⟨1/2, true⟩ R perlin c

/-! ## The spec-side draw-stream-stable tree generator (for refinement) -/

/-- Follows the spec's words (§4.5/§9: "every candidate still consumes its
random draws even if discarded"): like `tree_iter`, but the model, scale
and yaw draws are consumed BEFORE the exclusion test discards the
candidate.  This is the comparison point for the draw-stream-stability
claim; it is NOT the source behavior. -/
def tree_iter_spec (R : Nat → Nat → Nat) (perlin : ℚ → ℚ → ℚ)
    (c : ChunkCoordinate) (g : Rng) : Option TreePlacement × Rng :=
  let px := gen_range_q R (-(CHUNK_SIZE/2)) (CHUNK_SIZE/2) g
  let pz := gen_range_q R (-(CHUNK_SIZE/2)) (CHUNK_SIZE/2) px.2
  let x := px.1
  let z := pz.1
  let pm := gen_range_excl R 0 tree_models_len pz.2
  let ps := gen_range_q R 3 6 pm.2
  let pr := gen_angle R ps.2
  if should_spawn_village c = true ∧ x*x + z*z < 400*400 then
    (none, pr.2)
  else
    let world_x := (c.x : ℚ) * CHUNK_SIZE + x
    let world_z := (c.z : ℚ) * CHUNK_SIZE + z
    let terrain_height := get_terrain_height perlin world_x world_z
    (some ⟨x, z, pm.1, ps.1, pr.1, terrain_height + 5⟩, pr.2)

/-- The tree loop over `tree_iter_spec`. -/
def tree_loop_spec (R : Nat → Nat → Nat) (perlin : ℚ → ℚ → ℚ)
    (c : ChunkCoordinate) : Nat → Rng → List TreePlacement
  | 0, _ => []
  | n + 1, g =>
    let p := tree_iter_spec R perlin c g
    match p.1 with
    | none => tree_loop_spec R perlin c n p.2
    | some t => t :: tree_loop_spec R perlin c n p.2

/-- `spawn_trees_in_chunk` under the spec's draw-stream-stable semantics. -/
def spawn_trees_spec (R : Nat → Nat → Nat) (perlin : ℚ → ℚ → ℚ)
    (c : ChunkCoordinate) : List TreePlacement :=
  let g0 : Rng := ⟨seed_trees c, 0⟩
  let pc := gen_range_incl R TREES_PER_CHUNK_MIN TREES_PER_CHUNK_MAX g0
  tree_loop_spec R perlin c pc.1 pc.2

/-! ## The chunk manager (`manage_chunks`) -/

/-- Squared lattice distance between the player's chunk and another chunk
(`dx*dx + dz*dz` in src/main.rs lines 1010–1012 and 1034–1036). -/
def dist2 (p c : ChunkCoordinate) : Int :=
  (p.x - c.x) * (p.x - c.x) + (p.z - c.z) * (p.z - c.z)

/-- The nested offset loop domain of the load pass:
`for x_offset in -8..=8 { for z_offset in -8..=8 { ... } }`, flattened in
iteration order. -/
def load_offsets : List (Int × Int) :=
  (List.range 17).flatMap fun i =>
    (List.range 17).map fun j => (Int.ofNat i - 8, Int.ofNat j - 8)

/-- `struct ChunkManager`: the loaded-chunks map (keys only; the mapped
`Entity` values are opaque handles) and the last player chunk. -/
structure ChunkManagerState where
  loaded : List ChunkCoordinate
  last_player_chunk : ChunkCoordinate
deriving DecidableEq, Repr

/-- One iteration of the load loop of `manage_chunks` (src/main.rs lines
1023–1049): skip if the key is already loaded, skip if the offset is
outside the load radius, else spawn and insert. -/
def load_step (p : ChunkCoordinate) (acc : List ChunkCoordinate)
    (o : Int × Int) : List ChunkCoordinate :=
  let k : ChunkCoordinate := ⟨p.x + o.1, p.z + o.2⟩
  if k ∈ acc then acc
  else if o.1 * o.1 + o.2 * o.2 >
      LOAD_RADIUS_CHUNKS * LOAD_RADIUS_CHUNKS then acc
  else acc ++ [k]

/-- The load pass of `manage_chunks` (src/main.rs lines 1022–1050). -/
def load_pass (p : ChunkCoordinate) (loaded : List ChunkCoordinate) :
    List ChunkCoordinate :=
  load_offsets.foldl (load_step p) loaded

/-- One `manage_chunks` step (src/main.rs lines 980–1051), given the
player's world position: early-return when the player's chunk is unchanged
and the loaded set is nonempty; otherwise record the new player chunk,
unload every chunk with squared distance above `UNLOAD_RADIUS_CHUNKS²`,
then run the load pass. -/
def manage_chunks (pos : Vec3q) (s : ChunkManagerState) : ChunkManagerState :=
  let player_chunk := ChunkCoordinate.from_world_pos pos
  if player_chunk = s.last_player_chunk ∧ s.loaded ≠ [] then s
  else
    let kept := s.loaded.filter fun k =>
      ¬ dist2 player_chunk k >
        UNLOAD_RADIUS_CHUNKS * UNLOAD_RADIUS_CHUNKS
    { loaded := load_pass player_chunk kept
      last_player_chunk := player_chunk }

/-- The lattice disc of radius `UNLOAD_RADIUS_CHUNKS` about `p`: all keys
with squared lattice distance at most `144`. -/
def unload_disc (p : ChunkCoordinate) : Finset ChunkCoordinate :=
  (((Finset.Icc (p.x - 12) (p.x + 12)) ×ˢ (Finset.Icc (p.z - 12) (p.z + 12))).image
    (fun q => (⟨q.1, q.2⟩ : ChunkCoordinate))).filter
    (fun k => dist2 p k ≤ 144)

/-- The invariant the manager maintains: the loaded list holds no
duplicate keys, and every loaded key is within the unload radius of the
last recorded player chunk. -/
def ManagerInv (s : ChunkManagerState) : Prop :=
  s.loaded.Nodup ∧ ∀ k ∈ s.loaded, dist2 s.last_player_chunk k ≤ 144

/-! ## Mesh vertex sampling (`create_terrain_mesh`) -/

/-- `SUBDIVISIONS` in `create_terrain_mesh` (src/main.rs line 1138). -/
def SUBDIVISIONS : Nat := 20

/-- Local coordinate of grid index `i` along one mesh axis (src/main.rs
lines 1152–1153): `(i / SUBDIVISIONS) * CHUNK_SIZE − CHUNK_SIZE / 2`. -/
def mesh_local_coord (i : Nat) : ℚ :=
  ((i : ℚ) / (SUBDIVISIONS : ℚ)) * CHUNK_SIZE - CHUNK_SIZE / 2

/-- World x-coordinate sampled for mesh vertex column `xi` of chunk `c`
(src/main.rs line 1155): `chunk_world_x + local_x`. -/
def mesh_vertex_world_x (c : ChunkCoordinate) (xi : Nat) : ℚ :=
  (c.x : ℚ) * CHUNK_SIZE + mesh_local_coord xi

/-- World z-coordinate sampled for mesh vertex row `zi` of chunk `c`
(src/main.rs line 1156). -/
def mesh_vertex_world_z (c : ChunkCoordinate) (zi : Nat) : ℚ :=
  (c.z : ℚ) * CHUNK_SIZE + mesh_local_coord zi

/-- The elevation baked into mesh vertex `(xi, zi)` of chunk `c`
(src/main.rs line 1158): `get_terrain_height(world_x, world_z)`. -/
def mesh_vertex_height (perlin : ℚ → ℚ → ℚ) (c : ChunkCoordinate)
    (xi zi : Nat) : ℚ :=
  get_terrain_height perlin (mesh_vertex_world_x c xi) (mesh_vertex_world_z c zi)

/-! ## Concrete instances used in counterexamples and witnesses -/

/-- A concrete entropy family: mid-range draws (raw value 500000, i.e.
unit value 0.5) for draw indices below 3, then the draw index itself. -/
def entropyCE : Nat → Nat → Nat := fun _ idx => if idx < 3 then 500000 else idx

/-- A concrete Perlin stand-in that is identically `0`. -/
def perlinZero : ℚ → ℚ → ℚ := fun _ _ => 0

/-- A concrete Perlin stand-in that is identically `1`. -/
def perlinOne : ℚ → ℚ → ℚ := fun _ _ => 1

/-! ## Helper lemmas about the manager step -/

theorem sq_le_of_le_sq {a r : Int} (hr : 0 ≤ r) (h : a * a ≤ r * r) :
    -r ≤ a ∧ a ≤ r := by
  constructor
  · nlinarith [mul_self_nonneg (a + r)]
  · nlinarith [mul_self_nonneg (a - r)]

theorem mem_load_offsets (o : Int × Int) :
    o ∈ load_offsets ↔ -8 ≤ o.1 ∧ o.1 ≤ 8 ∧ -8 ≤ o.2 ∧ o.2 ≤ 8 := by
  constructor
  · intro h
    rw [load_offsets, List.mem_flatMap] at h
    obtain ⟨i, hi, h⟩ := h
    rw [List.mem_map] at h
    obtain ⟨j, hj, h⟩ := h
    rw [List.mem_range] at hi
    rw [List.mem_range] at hj
    subst h
    refine ⟨?_, ?_, ?_, ?_⟩ <;> dsimp only <;>
      simp only [Int.ofNat_eq_natCast] <;> omega
  · intro h
    obtain ⟨h1, h2, h3, h4⟩ := h
    rw [load_offsets, List.mem_flatMap]
    refine ⟨(o.1 + 8).toNat, ?_, ?_⟩
    · rw [List.mem_range]
      omega
    · rw [List.mem_map]
      refine ⟨(o.2 + 8).toNat, ?_, ?_⟩
      · rw [List.mem_range]
        omega
      · have h5 : Int.ofNat (o.1 + 8).toNat - 8 = o.1 := by
          simp only [Int.ofNat_eq_natCast]
          omega
        have h6 : Int.ofNat (o.2 + 8).toNat - 8 = o.2 := by
          simp only [Int.ofNat_eq_natCast]
          omega
        rw [h5, h6]

theorem mem_foldl_load_step (p : ChunkCoordinate) :
    ∀ (os : List (Int × Int)) (acc : List ChunkCoordinate)
      (k : ChunkCoordinate),
      k ∈ os.foldl (load_step p) acc ↔
        k ∈ acc ∨ ∃ o ∈ os, o.1 * o.1 + o.2 * o.2 ≤ 64 ∧
          k = ⟨p.x + o.1, p.z + o.2⟩
  | [], acc, k => by simp
  | o :: os, acc, k => by
    rw [List.foldl_cons, mem_foldl_load_step p os (load_step p acc o) k,
      List.exists_mem_cons_iff]
    simp only [load_step, LOAD_RADIUS_CHUNKS]
    by_cases h1 : (⟨p.x + o.1, p.z + o.2⟩ : ChunkCoordinate) ∈ acc
    · rw [if_pos h1]
      constructor
      · rintro (h | h)
        · exact Or.inl h
        · exact Or.inr (Or.inr h)
      · rintro (h | ⟨hle, hk⟩ | h)
        · exact Or.inl h
        · exact Or.inl (by rw [hk]; exact h1)
        · exact Or.inr h
    · rw [if_neg h1]
      by_cases h2 : o.1 * o.1 + o.2 * o.2 > 8 * 8
      · rw [if_pos h2]
        constructor
        · rintro (h | h)
          · exact Or.inl h
          · exact Or.inr (Or.inr h)
        · rintro (h | ⟨hle, hk⟩ | h)
          · exact Or.inl h
          · exact absurd hle (by omega)
          · exact Or.inr h
      · rw [if_neg h2]
        simp only [List.mem_append, List.mem_singleton]
        constructor
        · rintro ((h | h) | h)
          · exact Or.inl h
          · exact Or.inr (Or.inl ⟨by omega, h⟩)
          · exact Or.inr (Or.inr h)
        · rintro (h | ⟨hle, hk⟩ | h)
          · exact Or.inl (Or.inl h)
          · exact Or.inl (Or.inr hk)
          · exact Or.inr h

theorem mem_load_pass (p : ChunkCoordinate) (loaded : List ChunkCoordinate)
    (k : ChunkCoordinate) :
    k ∈ load_pass p loaded ↔
      k ∈ loaded ∨ dist2 p k ≤ 64 := by
  rw [load_pass, mem_foldl_load_step]
  constructor
  · rintro (h | ⟨o, -, hle, rfl⟩)
    · exact Or.inl h
    · refine Or.inr ?_
      show (p.x - (p.x + o.1)) * (p.x - (p.x + o.1)) +
        (p.z - (p.z + o.2)) * (p.z - (p.z + o.2)) ≤ 64
      have he : (p.x - (p.x + o.1)) * (p.x - (p.x + o.1)) +
          (p.z - (p.z + o.2)) * (p.z - (p.z + o.2)) =
          o.1 * o.1 + o.2 * o.2 := by ring
      rw [he]
      exact hle
  · rintro (h | h)
    · exact Or.inl h
    · have hx : (k.x - p.x) * (k.x - p.x) ≤ 8 * 8 := by
        simp only [dist2] at h
        nlinarith [mul_self_nonneg (p.z - k.z)]
      have hz : (k.z - p.z) * (k.z - p.z) ≤ 8 * 8 := by
        simp only [dist2] at h
        nlinarith [mul_self_nonneg (p.x - k.x)]
      obtain ⟨hx1, hx2⟩ := sq_le_of_le_sq (by omega) hx
      obtain ⟨hz1, hz2⟩ := sq_le_of_le_sq (by omega) hz
      refine Or.inr ⟨(k.x - p.x, k.z - p.z), ?_, ?_, ?_⟩
      · rw [mem_load_offsets]
        exact ⟨hx1, hx2, hz1, hz2⟩
      · show (k.x - p.x) * (k.x - p.x) + (k.z - p.z) * (k.z - p.z) ≤ 64
        simp only [dist2] at h
        nlinarith
      · show k = (⟨p.x + (k.x - p.x), p.z + (k.z - p.z)⟩ : ChunkCoordinate)
        obtain ⟨kx, kz⟩ := k
        simp only [ChunkCoordinate.mk.injEq]
        omega

theorem nodup_load_step (p : ChunkCoordinate) (acc : List ChunkCoordinate)
    (o : Int × Int) (h : acc.Nodup) : (load_step p acc o).Nodup := by
  unfold load_step
  by_cases h1 : (⟨p.x + o.1, p.z + o.2⟩ : ChunkCoordinate) ∈ acc
  · simpa [h1]
  · by_cases h2 : o.1 * o.1 + o.2 * o.2 >
        LOAD_RADIUS_CHUNKS * LOAD_RADIUS_CHUNKS
    · simpa [h1, h2]
    · simp only [h1, if_false, h2, if_true, if_neg]
      simpa [List.nodup_append, h1] using h

theorem nodup_foldl_load_step (p : ChunkCoordinate) :
    ∀ (os : List (Int × Int)) (acc : List ChunkCoordinate),
      acc.Nodup → (os.foldl (load_step p) acc).Nodup
  | [], _, h => h
  | o :: os, acc, h => by
    rw [List.foldl_cons]
    exact nodup_foldl_load_step p os _ (nodup_load_step p acc o h)

theorem mem_unload_disc (p k : ChunkCoordinate) :
    k ∈ unload_disc p ↔ dist2 p k ≤ 144 := by
  simp only [unload_disc, Finset.mem_filter, Finset.mem_image,
    Finset.mem_product, Finset.mem_Icc, Prod.exists, decide_eq_true_eq]
  constructor
  · rintro ⟨-, h⟩
    exact h
  · intro h
    refine ⟨⟨k.x, k.z, ⟨⟨?_, ?_⟩, ?_, ?_⟩, rfl⟩, h⟩ <;>
    · simp only [dist2] at h
      nlinarith [mul_self_nonneg (p.x - k.x), mul_self_nonneg (p.z - k.z)]

theorem length_le_card_of_subset {l : List ChunkCoordinate}
    {S : Finset ChunkCoordinate} (hn : l.Nodup) (hs : ∀ k ∈ l, k ∈ S) :
    l.length ≤ S.card := by
  classical
  calc l.length = l.toFinset.card := (List.toFinset_card_of_nodup hn).symm
  _ ≤ S.card := Finset.card_le_card fun k hk => hs k (List.mem_toFinset.mp hk)

theorem mesh_local_coord_bounds (i : Nat) (hi : i ≤ SUBDIVISIONS) :
    -500 ≤ mesh_local_coord i ∧ mesh_local_coord i ≤ 500 := by
  have h1 : (i : ℚ) ≤ 20 := by
    exact_mod_cast hi
  have h2 : (0 : ℚ) ≤ (i : ℚ) := by positivity
  rw [mesh_local_coord, SUBDIVISIONS, CHUNK_SIZE]
  constructor <;> [nlinarith; nlinarith]

/-! # The claims -/

/-- **C2**: running the content-generation pipeline for a chunk twice
(trees, rocks, meteors, village decision, patrol decision), with the same
global entropy family and Perlin field (the global noise seed is never
mutated), produces bit-identical placement lists: each invocation
re-derives the seeds from the chunk coordinate and reads no other state,
so counts and every placed object's kind, position, rotation, scale and
model choice coincide. -/
theorem content_pipeline_two_runs_identical (R : Nat → Nat → Nat)
    (perlin : ℚ → ℚ → ℚ) (c : ChunkCoordinate) :
    (content_pipeline_twice R perlin c).1 = (content_pipeline_twice R perlin c).2 ∧
    (content_pipeline_twice R perlin c).1.trees.length =
      (content_pipeline_twice R perlin c).2.trees.length ∧
    (content_pipeline_twice R perlin c).1.rocks.length =
      (content_pipeline_twice R perlin c).2.rocks.length ∧
    (content_pipeline_twice R perlin c).1.meteors.length =
      (content_pipeline_twice R perlin c).2.meteors.length ∧
    (content_pipeline_twice R perlin c).1.village =
      (content_pipeline_twice R perlin c).2.village ∧
    (content_pipeline_twice R perlin c).1.patrol =
      (content_pipeline_twice R perlin c).2.patrol :=
  ⟨rfl, rfl, rfl, rfl, rfl, rfl⟩

/-- **C8**: the settlement decision is the pure strict threshold test
`village_hash K % 100 < 15` of the key alone: a residue of exactly 15 is
classified as no settlement, and the decision is a function of the key, so
it cannot change across reloads. -/
theorem village_decision_strict_threshold :
    (∀ c : ChunkCoordinate,
      should_spawn_village c = true ↔ village_hash c % 100 < 15) ∧
    (∀ c : ChunkCoordinate, village_hash c % 100 = 15 →
      should_spawn_village c = false) ∧
    village_hash ⟨55, 0⟩ % 100 = 15 ∧ should_spawn_village ⟨55, 0⟩ = false := by
  refine ⟨?_, ?_, by decide, by decide⟩
  · intro c
    simp [should_spawn_village]
  · intro c h
    simp [should_spawn_village, h]

/-- Witness for `village_decision_strict_threshold`: the boundary residue
15 occurs at chunk (55,0) and yields no settlement; chunk (0,0) has
residue 0 and a settlement. -/
theorem village_decision_strict_threshold_witness :
    (village_hash ⟨55, 0⟩ % 100 = 15 ∧ should_spawn_village ⟨55, 0⟩ = false) ∧
    (should_spawn_village ⟨0, 0⟩ = true ↔ village_hash ⟨0, 0⟩ % 100 < 15) :=
  ⟨⟨by decide, village_decision_strict_threshold.2.1 ⟨55, 0⟩ (by decide)⟩,
    village_decision_strict_threshold.1 ⟨0, 0⟩⟩

/-- **C7** (counterexample): with non-positive (or non-finite) extents the
guard of `spawn_chunk`'s ground block spawns nothing at all: the collider
is skipped but the visual terrain mesh is NOT attached either — the claim
that the visual geometry is still attached fails at extents
`half_size = 0`. -/
theorem invalid_extents_skip_visual_mesh_too :
    (spawn_ground_child ⟨0, true⟩ ⟨1/2, true⟩).collider = false ∧
    (spawn_ground_child ⟨0, true⟩ ⟨1/2, true⟩).visualMesh = false ∧
    (spawn_ground_child ⟨500, false⟩ ⟨1/2, true⟩).visualMesh = false := by
  norm_num [spawn_ground_child]

/-- **C7** (amended): when the computed collider extents are non-finite or
non-positive, `spawn_chunk` skips the entire ground child — collider AND
visual terrain mesh — while the rest of the chunk's content (trees, rocks,
meteors, village, patrol) is still generated, the guard being local to the
ground block. -/
theorem invalid_extents_skip_ground_child (half_size thickness : F32)
    (R : Nat → Nat → Nat) (perlin : ℚ → ℚ → ℚ) (c : ChunkCoordinate)
    (h : ¬ (0 < half_size.val ∧ half_size.isFinite = true ∧
      0 < thickness.val)) :
    (spawn_chunk_with_extents half_size thickness R perlin c).ground =
      ⟨false, false⟩ ∧
    (spawn_chunk_with_extents half_size thickness R perlin c).content =
      content_pipeline R perlin c := by
  refine ⟨?_, rfl⟩
  simp [spawn_chunk_with_extents, spawn_ground_child, h]

/-- Witness for `invalid_extents_skip_ground_child` at `half_size = 0`. -/
theorem invalid_extents_skip_ground_child_witness :
    (¬ (0 < (⟨0, true⟩ : F32).val ∧ (⟨0, true⟩ : F32).isFinite = true ∧
      0 < (⟨1/2, true⟩ : F32).val)) ∧
    (spawn_chunk_with_extents ⟨0, true⟩ ⟨1/2, true⟩ entropyCE perlinZero
      ⟨0, 0⟩).ground = ⟨false, false⟩ :=
  ⟨by norm_num,
    (invalid_extents_skip_ground_child ⟨0, true⟩ ⟨1/2, true⟩ entropyCE
      perlinZero ⟨0, 0⟩ (by norm_num)).1⟩

/-- **C9** (counterexample): chunk (0,0) spawns a patrol at (0, 500, 0);
the spawn altitude is the absolute constant 500, not terrain-relative: two
Perlin fields with different elevations at the spawn point leave the
altitude unchanged, so no fixed offset from the terrain elevation exists. -/
theorem patrol_altitude_not_terrain_relative :
    patrol_spawn ⟨0, 0⟩ = some ⟨0, 500, 0⟩ ∧
    get_terrain_height perlinZero 0 0 ≠ get_terrain_height perlinOne 0 0 ∧
    ¬ ∃ offset : ℚ, ∀ (perlin : ℚ → ℚ → ℚ) (c : ChunkCoordinate)
        (pos : Vec3q), patrol_spawn c = some pos →
        pos.y = get_terrain_height perlin pos.x pos.z + offset := by
  have hp : should_spawn_patrol ⟨0, 0⟩ = true := by decide
  have hspawn : patrol_spawn ⟨0, 0⟩ = some ⟨0, 500, 0⟩ := by
    simp [patrol_spawn, hp, CHUNK_SIZE]
  have e0 : get_terrain_height perlinZero (0 : ℚ) (0 : ℚ) = 0 := by
    norm_num [get_terrain_height, perlinZero, max_def, min_def]
  have e1 : get_terrain_height perlinOne (0 : ℚ) (0 : ℚ) = 118 := by
    norm_num [get_terrain_height, perlinOne, max_def, min_def]
  refine ⟨hspawn, by rw [e0, e1]; norm_num, ?_⟩
  rintro ⟨offset, h⟩
  have h0 := h perlinZero ⟨0, 0⟩ ⟨0, 500, 0⟩ hspawn
  have h1 := h perlinOne ⟨0, 0⟩ ⟨0, 500, 0⟩ hspawn
  dsimp only at h0 h1
  rw [e0] at h0
  rw [e1] at h1
  linarith

/-- **C9** (amended): the patrol decision is the pure hash gate
`patrol_hash K % 100 < 15` (multipliers 1234567/7654321, distinct from the
settlement constants, same 15% threshold); when it fires exactly one
patrol unit spawns, at the chunk origin at the fixed ABSOLUTE altitude 500
(independent of the terrain elevation). -/
theorem patrol_spawn_fixed_absolute_altitude (c : ChunkCoordinate) :
    (should_spawn_patrol c = true ↔ patrol_hash c % 100 < 15) ∧
    (should_spawn_patrol c = true →
      patrol_spawn c =
        some ⟨(c.x : ℚ) * CHUNK_SIZE, 500, (c.z : ℚ) * CHUNK_SIZE⟩) ∧
    (should_spawn_patrol c = false → patrol_spawn c = none) := by
  refine ⟨by simp [should_spawn_patrol], ?_, ?_⟩
  · intro h
    simp [patrol_spawn, h]
  · intro h
    simp [patrol_spawn, h]

/-- Witness for `patrol_spawn_fixed_absolute_altitude` at chunk (0,0). -/
theorem patrol_spawn_fixed_absolute_altitude_witness :
    should_spawn_patrol ⟨0, 0⟩ = true ∧
    patrol_spawn ⟨0, 0⟩ =
      some ⟨((0 : Int) : ℚ) * CHUNK_SIZE, 500, ((0 : Int) : ℚ) * CHUNK_SIZE⟩ :=
  ⟨by decide, (patrol_spawn_fixed_absolute_altitude ⟨0, 0⟩).2.1 (by decide)⟩

theorem tree_loop_succ (R : Nat → Nat → Nat) (perlin : ℚ → ℚ → ℚ)
    (c : ChunkCoordinate) (n : Nat) (g : Rng) :
    tree_loop R perlin c (n + 1) g =
      match (tree_iter R perlin c g).1 with
      | none => tree_loop R perlin c n (tree_iter R perlin c g).2
      | some t => t :: tree_loop R perlin c n (tree_iter R perlin c g).2 :=
  rfl

theorem tree_loop_step_none (R : Nat → Nat → Nat) (perlin : ℚ → ℚ → ℚ)
    (c : ChunkCoordinate) (n : Nat) (g g' : Rng)
    (h : tree_iter R perlin c g = (none, g')) :
    tree_loop R perlin c (n + 1) g = tree_loop R perlin c n g' := by
  rw [tree_loop_succ, h]

theorem tree_loop_step_some (R : Nat → Nat → Nat) (perlin : ℚ → ℚ → ℚ)
    (c : ChunkCoordinate) (n : Nat) (g g' : Rng) (t : TreePlacement)
    (h : tree_iter R perlin c g = (some t, g')) :
    tree_loop R perlin c (n + 1) g = t :: tree_loop R perlin c n g' := by
  rw [tree_loop_succ, h]

theorem tree_loop_spec_succ (R : Nat → Nat → Nat) (perlin : ℚ → ℚ → ℚ)
    (c : ChunkCoordinate) (n : Nat) (g : Rng) :
    tree_loop_spec R perlin c (n + 1) g =
      match (tree_iter_spec R perlin c g).1 with
      | none => tree_loop_spec R perlin c n (tree_iter_spec R perlin c g).2
      | some t =>
          t :: tree_loop_spec R perlin c n (tree_iter_spec R perlin c g).2 :=
  rfl

theorem tree_loop_spec_step_none (R : Nat → Nat → Nat) (perlin : ℚ → ℚ → ℚ)
    (c : ChunkCoordinate) (n : Nat) (g g' : Rng)
    (h : tree_iter_spec R perlin c g = (none, g')) :
    tree_loop_spec R perlin c (n + 1) g = tree_loop_spec R perlin c n g' := by
  rw [tree_loop_spec_succ, h]

theorem tree_loop_spec_step_some (R : Nat → Nat → Nat) (perlin : ℚ → ℚ → ℚ)
    (c : ChunkCoordinate) (n : Nat) (g g' : Rng) (t : TreePlacement)
    (h : tree_iter_spec R perlin c g = (some t, g')) :
    tree_loop_spec R perlin c (n + 1) g =
      t :: tree_loop_spec R perlin c n g' := by
  rw [tree_loop_spec_succ, h]

/-- **C1** (counterexample): chunk (0,0) has a settlement; under the
concrete entropy family `entropyCE` the first tree candidate lands at
local (0,0), inside the exclusion radius, and its loop iteration consumes
only 2 draws (the skipped candidate's model/scale/rotation draws are NOT
consumed), while the next, non-excluded iteration consumes 5; the draw
stream therefore shifts, and the first tree actually placed sits at a
different local x than under the spec's always-consume semantics, so the
produced placement lists differ. -/
theorem skipping_perturbs_subsequent_draws :
    should_spawn_village ⟨0, 0⟩ = true ∧
    (tree_iter entropyCE perlinZero ⟨0, 0⟩ ⟨seed_trees ⟨0, 0⟩, 1⟩).1 =
      none ∧
    (tree_iter entropyCE perlinZero ⟨0, 0⟩ ⟨seed_trees ⟨0, 0⟩, 1⟩).2.idx =
      3 ∧
    (tree_iter entropyCE perlinZero ⟨0, 0⟩
      ⟨seed_trees ⟨0, 0⟩, 3⟩).1.isSome = true ∧
    (tree_iter entropyCE perlinZero ⟨0, 0⟩ ⟨seed_trees ⟨0, 0⟩, 3⟩).2.idx =
      8 ∧
    (spawn_trees_in_chunk entropyCE perlinZero ⟨0, 0⟩).head?.map
      TreePlacement.x = some (-499997/1000) ∧
    (spawn_trees_spec entropyCE perlinZero ⟨0, 0⟩).head?.map
      TreePlacement.x = some (-499994/1000) ∧
    spawn_trees_in_chunk entropyCE perlinZero ⟨0, 0⟩ ≠
      spawn_trees_spec entropyCE perlinZero ⟨0, 0⟩ := by
  have hseed : seed_trees ⟨0, 0⟩ = 0 := by decide
  have hv : should_spawn_village ⟨0, 0⟩ = true := by decide
  have hcount : gen_range_incl entropyCE TREES_PER_CHUNK_MIN
      TREES_PER_CHUNK_MAX ⟨0, 0⟩ = (7, ⟨0, 1⟩) := by decide
  have hiter1 : tree_iter entropyCE perlinZero ⟨0, 0⟩ ⟨0, 1⟩ =
      (none, ⟨0, 3⟩) := by
    rw [tree_iter]
    norm_num [gen_range_q, nextRaw, unitOf, entropyCE, CHUNK_SIZE, hv]
  have hiter2 : tree_iter entropyCE perlinZero ⟨0, 0⟩ ⟨0, 3⟩ =
      (some ⟨-499997/1000, -499996/1000, 0, 1500009/500000, 7/1000000, 5⟩,
        ⟨0, 8⟩) := by
    rw [tree_iter]
    norm_num [gen_range_q, gen_range_excl, gen_angle, nextRaw, unitOf,
      entropyCE, perlinZero, CHUNK_SIZE, tree_models_len, hv,
      get_terrain_height, max_def, min_def]
  have hiter1s : tree_iter_spec entropyCE perlinZero ⟨0, 0⟩ ⟨0, 1⟩ =
      (none, ⟨0, 6⟩) := by
    rw [tree_iter_spec]
    norm_num [gen_range_q, gen_range_excl, gen_angle, nextRaw, unitOf,
      entropyCE, CHUNK_SIZE, tree_models_len, hv]
  have hiter2s : tree_iter_spec entropyCE perlinZero ⟨0, 0⟩ ⟨0, 6⟩ =
      (some ⟨-499994/1000, -499993/1000, 3, 3000027/1000000, 1/100000, 5⟩,
        ⟨0, 11⟩) := by
    rw [tree_iter_spec]
    norm_num [gen_range_q, gen_range_excl, gen_angle, nextRaw, unitOf,
      entropyCE, perlinZero, CHUNK_SIZE, tree_models_len, hv,
      get_terrain_height, max_def, min_def]
  have hcode : spawn_trees_in_chunk entropyCE perlinZero ⟨0, 0⟩ =
      (⟨-499997/1000, -499996/1000, 0, 1500009/500000, 7/1000000, 5⟩ :
        TreePlacement) :: tree_loop entropyCE perlinZero ⟨0, 0⟩ 5 ⟨0, 8⟩ := by
    rw [spawn_trees_in_chunk, hseed, hcount]
    show tree_loop entropyCE perlinZero ⟨0, 0⟩ (6 + 1) ⟨0, 1⟩ = _
    rw [tree_loop_step_none _ _ _ _ _ _ hiter1]
    show tree_loop entropyCE perlinZero ⟨0, 0⟩ (5 + 1) ⟨0, 3⟩ = _
    rw [tree_loop_step_some _ _ _ _ _ _ _ hiter2]
  have hspec : spawn_trees_spec entropyCE perlinZero ⟨0, 0⟩ =
      (⟨-499994/1000, -499993/1000, 3, 3000027/1000000, 1/100000, 5⟩ :
        TreePlacement) ::
        tree_loop_spec entropyCE perlinZero ⟨0, 0⟩ 5 ⟨0, 11⟩ := by
    rw [spawn_trees_spec, hseed, hcount]
    show tree_loop_spec entropyCE perlinZero ⟨0, 0⟩ (6 + 1) ⟨0, 1⟩ = _
    rw [tree_loop_spec_step_none _ _ _ _ _ _ hiter1s]
    show tree_loop_spec entropyCE perlinZero ⟨0, 0⟩ (5 + 1) ⟨0, 6⟩ = _
    rw [tree_loop_spec_step_some _ _ _ _ _ _ _ hiter2s]
  have hcodeHead : (spawn_trees_in_chunk entropyCE perlinZero
      ⟨0, 0⟩).head?.map TreePlacement.x = some (-499997/1000) := by
    rw [hcode]
    rfl
  have hspecHead : (spawn_trees_spec entropyCE perlinZero
      ⟨0, 0⟩).head?.map TreePlacement.x = some (-499994/1000) := by
    rw [hspec]
    rfl
  refine ⟨hv, by rw [hseed, hiter1], by rw [hseed, hiter1],
    by rw [hseed, hiter2]; rfl, by rw [hseed, hiter2],
    hcodeHead, hspecHead, ?_⟩
  intro heq
  rw [heq, hspecHead] at hcodeHead
  simp only [Option.some.injEq] at hcodeHead
  norm_num at hcodeHead

/-- **C1** (amended): in the source, a candidate skipped by the settlement
exclusion consumes only its two position draws; the model, scale and
rotation draws of a skipped tree candidate (resp. the scale and rotation
draws of a skipped rock candidate) are NOT consumed — an iteration of the
tree loop advances the draw index by 2 when it skips and by 5 when it
places (2 vs 4 for rocks), with the seed unchanged either way.  Skipping
therefore shifts every later draw of that chunk's generator. -/
theorem skipped_candidate_partial_draw_consumption (R : Nat → Nat → Nat)
    (perlin : ℚ → ℚ → ℚ) (c : ChunkCoordinate) (g : Rng) :
    ((tree_iter R perlin c g).2.seed = g.seed ∧
      (tree_iter R perlin c g).2.idx =
        g.idx + (if (tree_iter R perlin c g).1 = none then 2 else 5)) ∧
    ((rock_iter R perlin c g).2.seed = g.seed ∧
      (rock_iter R perlin c g).2.idx =
        g.idx + (if (rock_iter R perlin c g).1 = none then 2 else 4)) := by
  constructor
  · rw [tree_iter]
    simp only [gen_range_q, gen_range_excl, gen_angle, nextRaw]
    split <;> simp
  · rw [rock_iter]
    simp only [gen_range_q, gen_angle, nextRaw]
    split <;> simp

/-- **C3**: after a `manage_chunks` step starting from an empty loaded
set, the loaded keys are exactly those with squared lattice distance at
most `LOAD_RADIUS_CHUNKS² = 64` from the player's chunk; a player at world
(0,0,0) is in chunk (0,0), so exactly `{(x,z) : x² + z² ≤ 64}` is loaded
and nothing outside that squared-radius test. -/
theorem load_from_empty_exact_disc :
    (∀ (pos : Vec3q) (last k : ChunkCoordinate),
      k ∈ (manage_chunks pos ⟨[], last⟩).loaded ↔
        dist2 (ChunkCoordinate.from_world_pos pos) k ≤ 64) ∧
    ChunkCoordinate.from_world_pos ⟨0, 0, 0⟩ = ⟨0, 0⟩ ∧
    LOAD_RADIUS_CHUNKS = 8 := by
  refine ⟨?_, ?_, rfl⟩
  · intro pos last k
    simp only [manage_chunks, ne_eq, not_true_eq_false, and_false, if_false,
      List.filter_nil, mem_load_pass, List.not_mem_nil, false_or]
  · rw [ChunkCoordinate.from_world_pos, CHUNK_SIZE]
    norm_num

/-- **C4**: hysteresis — a loaded region is never unloaded while its
squared lattice distance to the player's chunk is at most
`UNLOAD_RADIUS_CHUNKS² = 144`; and any region within the load radius of
one of two adjacent chunk centers stays within the unload radius of the
other, so oscillating between adjacent centers never unloads it. -/
theorem hysteresis_protects_within_unload_radius :
    (∀ (pos : Vec3q) (s : ChunkManagerState) (k : ChunkCoordinate),
      k ∈ s.loaded →
      dist2 (ChunkCoordinate.from_world_pos pos) k ≤
        UNLOAD_RADIUS_CHUNKS * UNLOAD_RADIUS_CHUNKS →
      k ∈ (manage_chunks pos s).loaded) ∧
    (∀ p q k : ChunkCoordinate, dist2 p q = 1 →
      dist2 p k ≤ LOAD_RADIUS_CHUNKS * LOAD_RADIUS_CHUNKS →
      dist2 q k ≤ UNLOAD_RADIUS_CHUNKS * UNLOAD_RADIUS_CHUNKS) := by
  constructor
  · intro pos s k hk hd
    simp only [manage_chunks]
    split
    · exact hk
    · dsimp only
      rw [mem_load_pass]
      refine Or.inl (List.mem_filter.mpr ⟨hk, ?_⟩)
      simp only [decide_eq_true_eq]
      exact not_lt.mpr hd
  · intro p q k h1 h2
    simp only [dist2, LOAD_RADIUS_CHUNKS, UNLOAD_RADIUS_CHUNKS] at h1 h2 ⊢
    nlinarith [mul_self_nonneg ((p.x - k.x) + (p.x - q.x)),
      mul_self_nonneg ((p.z - k.z) + (p.z - q.z))]

/-- Witness for `hysteresis_protects_within_unload_radius`: chunk (0,0)
stays loaded across a step at the same position, and a region at lattice
distance 8 from one of two adjacent centers is within distance 12 of the
other. -/
theorem hysteresis_protects_within_unload_radius_witness :
    ((⟨0, 0⟩ : ChunkCoordinate) ∈
        (⟨[⟨0, 0⟩], ⟨0, 0⟩⟩ : ChunkManagerState).loaded ∧
      dist2 (ChunkCoordinate.from_world_pos ⟨0, 0, 0⟩) ⟨0, 0⟩ ≤
        UNLOAD_RADIUS_CHUNKS * UNLOAD_RADIUS_CHUNKS) ∧
    (⟨0, 0⟩ : ChunkCoordinate) ∈
      (manage_chunks ⟨0, 0, 0⟩ ⟨[⟨0, 0⟩], ⟨0, 0⟩⟩).loaded ∧
    (dist2 ⟨0, 0⟩ ⟨1, 0⟩ = 1 ∧
      dist2 ⟨0, 0⟩ ⟨8, 0⟩ ≤ LOAD_RADIUS_CHUNKS * LOAD_RADIUS_CHUNKS) ∧
    dist2 ⟨1, 0⟩ ⟨8, 0⟩ ≤ UNLOAD_RADIUS_CHUNKS * UNLOAD_RADIUS_CHUNKS := by
  have hmem : (⟨0, 0⟩ : ChunkCoordinate) ∈
      (⟨[⟨0, 0⟩], ⟨0, 0⟩⟩ : ChunkManagerState).loaded := by
    simp
  have hdist : dist2 (ChunkCoordinate.from_world_pos ⟨0, 0, 0⟩) ⟨0, 0⟩ ≤
      UNLOAD_RADIUS_CHUNKS * UNLOAD_RADIUS_CHUNKS := by
    have h0 : ChunkCoordinate.from_world_pos ⟨0, 0, 0⟩ = ⟨0, 0⟩ := by
      rw [ChunkCoordinate.from_world_pos, CHUNK_SIZE]
      norm_num
    rw [h0]
    decide
  refine ⟨⟨hmem, hdist⟩,
    hysteresis_protects_within_unload_radius.1 ⟨0, 0, 0⟩ _ _ hmem hdist,
    ⟨by decide, by decide⟩,
    hysteresis_protects_within_unload_radius.2 ⟨0, 0⟩ ⟨1, 0⟩ ⟨8, 0⟩
      (by decide) (by decide)⟩

/-- **C5**: the manager invariant — no duplicate keys and every loaded key
within squared distance `144` of the recorded player chunk — is preserved
by every `manage_chunks` step, and therefore the number of loaded regions
never exceeds the number of lattice points within the unload radius of the
player's current chunk. -/
theorem bounded_working_set (pos : Vec3q) (s : ChunkManagerState)
    (h : ManagerInv s) :
    ManagerInv (manage_chunks pos s) ∧
    (manage_chunks pos s).loaded.length ≤
      (unload_disc (manage_chunks pos s).last_player_chunk).card := by
  have hU : UNLOAD_RADIUS_CHUNKS * UNLOAD_RADIUS_CHUNKS = 144 := by decide
  have key : ManagerInv (manage_chunks pos s) := by
    simp only [manage_chunks]
    split
    · exact h
    · constructor
      · dsimp only
        rw [load_pass]
        exact nodup_foldl_load_step _ _ _ (h.1.filter _)
      · intro k hk
        dsimp only at hk ⊢
        rw [mem_load_pass] at hk
        rcases hk with hk | hk
        · have := (List.mem_filter.mp hk).2
          simp only [decide_eq_true_eq, hU] at this
          omega
        · omega
  exact ⟨key, length_le_card_of_subset key.1
    fun k hk => (mem_unload_disc _ k).mpr (key.2 k hk)⟩

/-- Witness for `bounded_working_set`: the empty initial manager state
satisfies the invariant, and a step at the origin preserves it with the
cardinality bound. -/
theorem bounded_working_set_witness :
    ManagerInv ⟨[], ⟨0, 0⟩⟩ ∧
    (ManagerInv (manage_chunks ⟨0, 0, 0⟩ ⟨[], ⟨0, 0⟩⟩) ∧
      (manage_chunks ⟨0, 0, 0⟩ ⟨[], ⟨0, 0⟩⟩).loaded.length ≤
        (unload_disc
          (manage_chunks ⟨0, 0, 0⟩ ⟨[], ⟨0, 0⟩⟩).last_player_chunk).card) :=
  ⟨⟨List.nodup_nil, fun k hk => absurd hk (List.not_mem_nil k)⟩,
    bounded_working_set ⟨0, 0, 0⟩ ⟨[], ⟨0, 0⟩⟩
      ⟨List.nodup_nil, fun k hk => absurd hk (List.not_mem_nil k)⟩⟩

/-- **C6**: laterally adjacent chunks bake identical elevations at their
shared boundary: column `SUBDIVISIONS` of chunk `(cx,cz)` and column `0`
of chunk `(cx+1,cz)` sample `get_terrain_height` at the same world
coordinates (similarly for the z boundary), for every Perlin field — e.g.
chunk (0,0)'s vertex at local x = +500 and chunk (1,0)'s vertex at local
x = −500 both sample world x = cx·1000 + 500. -/
theorem terrain_boundary_continuity (perlin : ℚ → ℚ → ℚ) (cx cz : Int)
    (j : Fin (SUBDIVISIONS + 1)) :
    mesh_vertex_height perlin ⟨cx, cz⟩ SUBDIVISIONS j.val =
      mesh_vertex_height perlin ⟨cx + 1, cz⟩ 0 j.val ∧
    mesh_vertex_height perlin ⟨cx, cz⟩ j.val SUBDIVISIONS =
      mesh_vertex_height perlin ⟨cx, cz + 1⟩ j.val 0 ∧
    mesh_vertex_world_x ⟨cx, cz⟩ SUBDIVISIONS = (cx : ℚ) * 1000 + 500 ∧
    mesh_vertex_world_x ⟨cx + 1, cz⟩ 0 = (cx : ℚ) * 1000 + 500 := by
  have hx : mesh_vertex_world_x ⟨cx, cz⟩ SUBDIVISIONS =
      mesh_vertex_world_x ⟨cx + 1, cz⟩ 0 := by
    simp only [mesh_vertex_world_x, mesh_local_coord, SUBDIVISIONS, CHUNK_SIZE]
    push_cast
    ring
  have hz : mesh_vertex_world_z ⟨cx, cz⟩ SUBDIVISIONS =
      mesh_vertex_world_z ⟨cx, cz + 1⟩ 0 := by
    simp only [mesh_vertex_world_z, mesh_local_coord, SUBDIVISIONS, CHUNK_SIZE]
    push_cast
    ring
  refine ⟨?_, ?_, ?_, ?_⟩
  · unfold mesh_vertex_height
    rw [hx]
    rfl
  · unfold mesh_vertex_height
    rw [hz]
    rfl
  · simp only [mesh_vertex_world_x, mesh_local_coord, SUBDIVISIONS, CHUNK_SIZE]
    norm_num
  · simp only [mesh_vertex_world_x, mesh_local_coord, SUBDIVISIONS, CHUNK_SIZE]
    push_cast
    ring

/-- **C10**: the terrain mesh of chunk K is centered on K's world origin,
its vertices spanning world x (and z) in [K·1000 − 500, K·1000 + 500] with
the extremes attained; consequently the area covered by a chunk's mesh is
not the preimage of `from_world_pos`: world x = 750 maps to key x = 0, yet
750 lies inside the span of key (1,·)'s mesh and outside key (0,·)'s. -/
theorem mesh_centered_span_differs_from_key_preimage :
    (∀ (c : ChunkCoordinate) (i : Fin (SUBDIVISIONS + 1)),
      ((c.x : ℚ) * CHUNK_SIZE - 500 ≤ mesh_vertex_world_x c i.val ∧
        mesh_vertex_world_x c i.val ≤ (c.x : ℚ) * CHUNK_SIZE + 500) ∧
      ((c.z : ℚ) * CHUNK_SIZE - 500 ≤ mesh_vertex_world_z c i.val ∧
        mesh_vertex_world_z c i.val ≤ (c.z : ℚ) * CHUNK_SIZE + 500)) ∧
    (∀ c : ChunkCoordinate,
      mesh_vertex_world_x c 0 = (c.x : ℚ) * CHUNK_SIZE - 500 ∧
      mesh_vertex_world_x c SUBDIVISIONS = (c.x : ℚ) * CHUNK_SIZE + 500) ∧
    ChunkCoordinate.from_world_pos ⟨750, 0, 0⟩ = ⟨0, 0⟩ ∧
    ((1 : ℚ) * CHUNK_SIZE - 500 ≤ 750 ∧ (750 : ℚ) ≤ 1 * CHUNK_SIZE + 500) ∧
    ¬ (750 : ℚ) ≤ (0 : ℚ) * CHUNK_SIZE + 500 := by
  refine ⟨?_, ?_, ?_, ?_, ?_⟩
  · intro c i
    have hb := mesh_local_coord_bounds i.val (Nat.lt_succ_iff.mp i.isLt)
    constructor <;> constructor <;>
      simp only [mesh_vertex_world_x, mesh_vertex_world_z] <;> linarith [hb.1, hb.2]
  · intro c
    constructor <;>
      · simp only [mesh_vertex_world_x, mesh_local_coord, SUBDIVISIONS,
          CHUNK_SIZE]
        push_cast
        ring
  · rw [ChunkCoordinate.from_world_pos, CHUNK_SIZE]
    norm_num
  · rw [CHUNK_SIZE]
    norm_num
  · rw [CHUNK_SIZE]
    norm_num

end PlaneGame
